import Mathlib

/-!
Verification development for the Smart-Travel-Planner repository.

The Python source (src/tools.py, src/agent.py) is shallowly embedded below:
pure string-building code becomes Lean functions on `String`, Python floats
become exact rationals (`ℚ`; every numeric literal and threshold involved is
exactly representable), raised exceptions become `Except.error`, `None`
becomes `Option.none`, and the outcome of each outbound HTTP request is an
explicit input parameter of the function that issues it (the repository
treats the providers as external collaborators).  Python truthiness tests
(`if distance_text`, `mode or ...`) are embedded by explicit functions so
that the `0.0`-is-falsy and `""`-is-falsy behaviour of the source is kept.
-/

namespace Travel

/-! ## String-containment helpers -/

/-- Characters of a concatenation, definitionally. -/
theorem strDataApp (a b : String) : (a ++ b).data = a.data ++ b.data := rfl

/-- Two strings with the same character list are equal. -/
theorem strOfData (a b : String) (h : a.data = b.data) : a = b := by
  cases a; cases b; exact congrArg String.mk h

/-- The string `sub` occurs contiguously inside `s`. -/
def occursIn (sub s : String) : Prop := sub.data <:+: s.data

/-- Every string occurs in itself. -/
theorem occursIn_self (s : String) : occursIn s s := ⟨[], [], by simp⟩

/-- A left factor of a concatenation occurs in it. -/
theorem occursIn_left (s t : String) : occursIn s (s ++ t) :=
  ⟨[], t.data, by simp [strDataApp]⟩

/-- A right factor of a concatenation occurs in it. -/
theorem occursIn_right (s t : String) : occursIn t (s ++ t) :=
  ⟨s.data, [], by simp [strDataApp]⟩

/-- Occurrence is preserved when text is appended on the right. -/
theorem occursIn_appL (sub s u : String) (h : occursIn sub s) : occursIn sub (s ++ u) := by
  rcases h with ⟨x, y, hxy⟩
  exact ⟨x, y ++ u.data, by rw [strDataApp, ← hxy]; simp⟩

/-- Occurrence is preserved when text is prepended on the left. -/
theorem occursIn_appR (sub s u : String) (h : occursIn sub s) : occursIn sub (u ++ s) := by
  rcases h with ⟨x, y, hxy⟩
  exact ⟨u.data ++ x, y, by rw [strDataApp, ← hxy]; simp⟩

/-- The middle factor of a three-part concatenation occurs in it. -/
theorem occursIn_mid (x sub y : String) : occursIn sub (x ++ sub ++ y) :=
  occursIn_appL _ _ _ (occursIn_right x sub)

/-! ## Python-semantics helpers -/

/-- Truthiness of an optional Python string: `None` and `""` are falsy. -/
def pyTruthyOptStr : Option String → Bool
  | none => false
  | some s => !(s == "")

/-- Truthiness of an optional Python float: `None` and `0.0` are falsy. -/
def pyTruthyOptQ : Option ℚ → Bool
  | none => false
  | some d => !(d == 0)

/-- Python `x or default` for an optional string (used for `distance_text or 'Unknown'`). -/
def pyOrStr (o : Option String) (dflt : String) : String :=
  match o with
  | none => dflt
  | some s => if s = "" then dflt else s

/-- Round-half-to-even of the fraction `n / d` (with `d > 0`), as Python `round`
and Python fixed-point formatting round.  `rem` is the remainder of the floor
division, so `n / d` lies strictly between `f` and `f + 1` iff `0 < rem < d`,
and the half-way test compares `2 * rem` with `d`.  (The source formats exact
decimal quantities of moderate size, where ideal decimal rounding and
binary-float rounding agree.) -/
def roundHalfEvenPair (n d : ℤ) : ℤ :=
  let f := Int.fdiv n d
  let rem := n - f * d
  if 2 * rem < d then f
  else if d < 2 * rem then f + 1
  else if f % 2 = 0 then f else f + 1

/-- Python `round(x)` on a rational. -/
def pyRound (x : ℚ) : ℤ := roundHalfEvenPair x.num (x.den : ℤ)

/-- Python `'{:.Nf}'.format(q)`: fixed-point rendering with `prec` decimals
(the value scaled by `10 ^ prec` is rounded half-to-even to an integer). -/
def fmtFixed (prec : Nat) (q : ℚ) : String :=
  let n := roundHalfEvenPair (q.num * (10 : ℤ) ^ prec) (q.den : ℤ)
  let m := n.natAbs
  let base := (10 : Nat) ^ prec
  let ip := m / base
  let fp := m % base
  let fs := Nat.repr fp
  let fpad := String.mk (List.replicate (prec - fs.length) '0') ++ fs
  (if n < 0 then "-" else "") ++ Nat.repr ip ++ (if prec = 0 then "" else "." ++ fpad)

/-! ## Python dict model (insertion-ordered, later assignment overwrites) -/

/-- One `factors[k] = v` assignment on an insertion-ordered dict. -/
def dictUpdate (d : List (String × ℚ)) (k : String) (v : ℚ) : List (String × ℚ) :=
  if d.any (fun p => p.1 == k) then d.map (fun p => if p.1 = k then (k, v) else p)
  else d ++ [(k, v)]

/-- The dict built by the `for row in reader` loop of `estimate_transport_emissions`
(src/tools.py lines 385-389): each CSV row assigns `factors[row.mode] = row.factor`. -/
def buildFactors (rows : List (String × ℚ)) : List (String × ℚ) :=
  rows.foldl (fun d kv => dictUpdate d kv.1 kv.2) []

/-- Python `d[k]` / `k in d` as an optional lookup. -/
def dictGet (d : List (String × ℚ)) (k : String) : Option ℚ :=
  (d.find? (fun p => p.1 == k)).map (fun p => p.2)

/-- Python `d.keys()` in insertion order. -/
def dictKeys (d : List (String × ℚ)) : List String := d.map (fun p => p.1)

/-- Python `', '.join(keys)`. -/
def commaJoin : List String → String
  | [] => ""
  | [s] => s
  | s :: rest => s ++ ", " ++ commaJoin rest

/-- Every member of the joined list occurs in the join. -/
theorem occursIn_commaJoin (k : String) :
    ∀ ks : List String, k ∈ ks → occursIn k (commaJoin ks) := by
  intro ks
  induction ks with
  | nil => intro h; exact absurd h (List.not_mem_nil k)
  | cons s rest ih =>
    intro h
    match rest, ih with
    | [], _ =>
      have hk : k = s := by simpa using h
      subst hk
      exact occursIn_self k
    | r :: rs, ih =>
      rcases List.mem_cons.mp h with hk | hk
      · subst hk
        exact occursIn_appL _ _ _ (occursIn_left k ", ")
      · exact occursIn_appR _ _ _ (ih hk)

/-! ## Emissions estimator (src/tools.py lines 382-394) -/

/-- Embedding of `estimate_transport_emissions(mode, distance_km)`
(src/tools.py lines 382-394).  The emission-factor table is read from
`emission_factors.csv` at every call; the parsed CSV rows are passed in as
`rows` (the data file is an external static resource of the repository).
An unknown mode yields the descriptive message; a known mode yields
`grams = factor * distance`, `kg = grams / 1000`, rendered with Python
`:.1f` / `:.2f` formatting. -/
def estimate_transport_emissions (rows : List (String × ℚ)) (mode : String)
    (distance_km : ℚ) : String :=
  let factors := buildFactors rows
  match dictGet factors mode with
  | none => "Mode '" ++ mode ++ "' not supported. Choose from: " ++ commaJoin (dictKeys factors)
  | some f =>
    let grams := f * distance_km
    let kg := grams / 1000
    "Estimated emissions for " ++ fmtFixed 1 distance_km ++ " km by " ++ mode ++ ": "
      ++ fmtFixed 2 kg ++ " kg CO2"

/-- C4: for every transport mode present in the emission-factor table (any table
contents, since the CSV is an external resource) and every non-negative distance,
`estimate_transport_emissions` reports kilograms of CO2 equal to
`factor * distance / 1000`, rendered to two decimal places (with the distance
rendered to one decimal place), exactly in the source's message format. -/
theorem c4_emissions_formula (rows : List (String × ℚ)) (mode : String) (d f : ℚ)
    (hm : dictGet (buildFactors rows) mode = some f) (_hd : 0 ≤ d) :
    estimate_transport_emissions rows mode d =
      "Estimated emissions for " ++ fmtFixed 1 d ++ " km by " ++ mode ++ ": "
        ++ fmtFixed 2 (f * d / 1000) ++ " kg CO2" := by
  simp only [estimate_transport_emissions, hm]

/-- Witness for C4 at the concrete table `[("train", 41)]` and distance 100 km:
41 g/km * 100 km / 1000 = 4.1 kg, rendered "4.10". -/
theorem c4_emissions_formula_witness :
    estimate_transport_emissions [("train", 41)] "train" 100 =
      "Estimated emissions for 100.0 km by train: 4.10 kg CO2" := by
  rw [c4_emissions_formula [("train", 41)] "train" 100 41 (by decide) (by norm_num)]
  have h1 : fmtFixed 1 (100 : ℚ) = "100.0" := by decide
  have h2 : fmtFixed 2 ((41 : ℚ) * 100 / 1000) = "4.10" := by
    have hn : ((41 : ℚ) * 100 / 1000).num = 41 := by norm_num
    have hd : ((41 : ℚ) * 100 / 1000).den = 10 := by norm_num
    simp only [fmtFixed, hn, hd]
    decide
  rw [h1, h2]
  decide

/-- C5: for every transport mode absent from the emission-factor table and every
distance, the estimator returns the descriptive message (never an exception), the
message contains the literal mode name, and it contains every key of the table. -/
theorem c5_unsupported_mode (rows : List (String × ℚ)) (mode : String) (d : ℚ)
    (hm : dictGet (buildFactors rows) mode = none) :
    estimate_transport_emissions rows mode d =
      "Mode '" ++ mode ++ "' not supported. Choose from: "
        ++ commaJoin (dictKeys (buildFactors rows)) ∧
    occursIn mode (estimate_transport_emissions rows mode d) ∧
    ∀ k ∈ dictKeys (buildFactors rows), occursIn k (estimate_transport_emissions rows mode d) := by
  have he : estimate_transport_emissions rows mode d =
      "Mode '" ++ mode ++ "' not supported. Choose from: "
        ++ commaJoin (dictKeys (buildFactors rows)) := by
    simp only [estimate_transport_emissions, hm]
  refine ⟨he, ?_, ?_⟩
  · rw [he]
    exact occursIn_appL _ _ _ (occursIn_appL _ _ _ (occursIn_right _ _))
  · intro k hk
    rw [he]
    exact occursIn_appR _ _ _ (occursIn_commaJoin k _ hk)

/-- Witness for C5 at the table `[("train", 41), ("bus", 105)]` and the
unsupported mode "spaceship" (the mode also exercised by the repository's own
test `test_estimate_transport_emissions_unknown_mode`). -/
theorem c5_unsupported_mode_witness :
    estimate_transport_emissions [("train", 41), ("bus", 105)] "spaceship" 50 =
      "Mode 'spaceship' not supported. Choose from: "
        ++ commaJoin (dictKeys (buildFactors [("train", 41), ("bus", 105)])) ∧
    occursIn "spaceship"
      (estimate_transport_emissions [("train", 41), ("bus", 105)] "spaceship" 50) ∧
    occursIn "train"
      (estimate_transport_emissions [("train", 41), ("bus", 105)] "spaceship" 50) := by
  have h := c5_unsupported_mode [("train", 41), ("bus", 105)] "spaceship" 50 (by decide)
  exact ⟨h.1, h.2.1, h.2.2 "train" (by decide)⟩

/-! ## Distance-text parsing (src/agent.py lines 103-111) -/

/-- Character class of the regex group `[0-9,.]` in `_format_distance_km`. -/
def isDistChar (c : Char) : Bool := c.isDigit || c == ',' || c == '.'

/-- Python regex whitespace class (the characters matched by a backslash-s). -/
def isSpaceChar (c : Char) : Bool :=
  c == ' ' || c == '\t' || c == '\n' || c == '\r' || c == '\x0b' || c == '\x0c'

/-- After the numeric run, optional whitespace followed by the literal "km". -/
def kmFollows (l : List Char) : Bool :=
  match l.dropWhile isSpaceChar with
  | 'k' :: 'm' :: _ => true
  | _ => false

/-- Leftmost match of the pattern: a maximal nonempty run of `[0-9,.]` characters
followed by optional whitespace and "km", as `re.search` finds it (scanning start
positions left to right; inside the character class no backtracking can succeed,
so the leftmost viable start position with its maximal run is the match). -/
def searchDist : List Char → Option (List Char)
  | [] => none
  | c :: rest =>
    if isDistChar c then
      if kmFollows ((c :: rest).dropWhile isDistChar) then some ((c :: rest).takeWhile isDistChar)
      else searchDist rest
    else searchDist rest

/-- Numeric value of a digit list read in base 10. -/
def digitsVal (l : List Char) : ℕ :=
  l.foldl (fun a c => a * 10 + (c.toNat - '0'.toNat)) 0

/-- Python `float(s)` on a string of digits and dots: accepted iff there is at
most one dot and at least one digit; otherwise `float` raises `ValueError`
(modelled as `none`).  Exponent notation cannot arise here because the regex
class admits only digits, commas and dots. -/
def pyFloatDigitsDots (l : List Char) : Option ℚ :=
  if !(l.all fun c => c.isDigit || c == '.') then none
  else if (l.filter (fun c => c == '.')).length = 0 then
    if l.isEmpty then none else some ((digitsVal l : ℚ))
  else if (l.filter (fun c => c == '.')).length = 1 then
    let ip := l.takeWhile (fun c => !(c == '.'))
    let fp := (l.dropWhile (fun c => !(c == '.'))).tail
    if ip.isEmpty && fp.isEmpty then none
    else some ((digitsVal ip : ℚ) + (digitsVal fp : ℚ) / (10 : ℚ) ^ fp.length)
  else none

/-- Python `float(s)` on a stripped decimal literal with optional sign
(as produced by the geocoding provider's latitude/longitude strings). -/
def pyFloatOfString (s : String) : Option ℚ :=
  let l := s.data.dropWhile isSpaceChar
  let l := (l.reverse.dropWhile isSpaceChar).reverse
  match l with
  | '-' :: rest => (pyFloatDigitsDots rest).map (fun q => -q)
  | '+' :: rest => pyFloatDigitsDots rest
  | _ => pyFloatDigitsDots l

/-- Embedding of `_format_distance_km(distance_text)` (src/agent.py lines
103-111): `None`/empty input yields `None`; no regex match yields `None`; on a
match, Python evaluates `float(group.replace(",", ""))`, which raises
`ValueError` (modelled as `Except.error ()`) when the matched run is not a valid
float after comma removal. -/
def format_distance_km (distance_text : Option String) : Except Unit (Option ℚ) :=
  match distance_text with
  | none => Except.ok none
  | some s =>
    if s = "" then Except.ok none
    else
      match searchDist s.data with
      | none => Except.ok none
      | some run =>
        match pyFloatDigitsDots (run.filter (fun c => !(c == ','))) with
        | some q => Except.ok (some q)
        | none => Except.error ()

/-- The guarded call `_format_distance_km(distance_text) if distance_text else
None` of `create_itinerary` (src/agent.py line 143). -/
def parse_distance (distance_text : Option String) : Except Unit (Option ℚ) :=
  if pyTruthyOptStr distance_text then format_distance_km distance_text else Except.ok none

/-- C3 (amended): the parser strips thousands separators and the "km" suffix on
well-formed inputs (`"1,234 km"` gives 1234, `"552 km"` gives 552, `None` gives
no value), and yields no value whenever the pattern finds no match; but "never
raises" is false: an error is raised exactly when the pattern matches a run that
is not a valid float after comma removal. -/
theorem c3_distance_parsing :
    format_distance_km (some "1,234 km") = Except.ok (some 1234) ∧
    format_distance_km (some "552 km") = Except.ok (some 552) ∧
    format_distance_km none = Except.ok none ∧
    (∀ s : String, searchDist s.data = none → format_distance_km (some s) = Except.ok none) ∧
    (∀ s : String, format_distance_km (some s) = Except.error () →
      ∃ run, searchDist s.data = some run ∧
        pyFloatDigitsDots (run.filter (fun c => !(c == ','))) = none) := by
  refine ⟨rfl, rfl, rfl, ?_, ?_⟩
  · intro s h
    simp only [format_distance_km, h]
    split <;> rfl
  · intro s he
    by_cases hs : s = ""
    · subst hs
      exact Except.noConfusion he
    · simp only [format_distance_km, if_neg hs] at he
      rcases hsd : searchDist s.data with _ | run
      · simp only [hsd] at he
        exact Except.noConfusion he
      · simp only [hsd] at he
        rcases hp : pyFloatDigitsDots (run.filter (fun c => !(c == ','))) with _ | q
        · exact ⟨run, rfl, hp⟩
        · simp only [hp] at he
          exact Except.noConfusion he

/-- Witness for C3's universally quantified parts at a concrete unparsable
string: no pattern match yields no value (and no error). -/
theorem c3_distance_parsing_witness :
    format_distance_km (some "no distance available") = Except.ok none :=
  c3_distance_parsing.2.2.2.1 "no distance available" (by decide)

/-- Counterexample for C3 as stated: on the input `". km"` the regex matches the
run `"."`, and `float(".")` raises `ValueError`, so the parser crashes instead of
yielding no value. -/
theorem c3_claim_false : format_distance_km (some ". km") = Except.error () := rfl

/-! ## Mode selection and emissions gating in create_itinerary
(src/agent.py lines 141-146) -/

/-- The fallback `"train" if (distance_km and distance_km < 800) else
"car_electric"` (src/agent.py line 145).  Python's `and` makes a parsed distance
of exactly 0.0 falsy, selecting "car_electric". -/
def mode_threshold (dk : Option ℚ) : String :=
  match dk with
  | none => "car_electric"
  | some d => if d = 0 then "car_electric" else if d < 800 then "train" else "car_electric"

/-- The full selection `mode or (...)` (src/agent.py line 145): a truthy caller
mode wins; `None` or `""` falls back to the threshold heuristic. -/
def chosen_mode (mode : Option String) (dk : Option ℚ) : String :=
  match mode with
  | none => mode_threshold dk
  | some m => if m = "" then mode_threshold dk else m

/-- The emissions field `estimate_transport_emissions(chosen_mode, distance_km)
if distance_km else "(emissions unavailable)"` (src/agent.py line 146); again
`distance_km == 0.0` is falsy. -/
def emissions_field (rows : List (String × ℚ)) (chosen : String) (dk : Option ℚ) : String :=
  match dk with
  | none => "(emissions unavailable)"
  | some d => if d = 0 then "(emissions unavailable)" else estimate_transport_emissions rows chosen d

/-- C1 (amended): a non-empty caller-forced mode always overrides the threshold
logic; with no forced mode and a nonzero resolved distance d, the chosen mode is
"train" iff d < 800 km (in particular "train" at 799.9 and "car_electric" at
800.0).  (As stated the claim is false at d = 0, where Python truthiness skips
the threshold and yields "car_electric", and for a forced empty-string mode,
which is falsy and does not override.) -/
theorem c1_mode_selection :
    (∀ (m : String) (dk : Option ℚ), m ≠ "" → chosen_mode (some m) dk = m) ∧
    (∀ d : ℚ, d ≠ 0 → chosen_mode none (some d) =
      (if d < 800 then "train" else "car_electric")) ∧
    chosen_mode none (some (7999/10)) = "train" ∧
    chosen_mode none (some 800) = "car_electric" := by
  refine ⟨?_, ?_, ?_, ?_⟩
  · intro m dk hm
    simp [chosen_mode, hm]
  · intro d hd
    simp [chosen_mode, mode_threshold, hd]
  · have h1 : ¬((7999/10 : ℚ) = 0) := by norm_num
    have h2 : (7999/10 : ℚ) < 800 := by norm_num
    simp [chosen_mode, mode_threshold, h1, h2]
  · have h1 : ¬((800 : ℚ) = 0) := by norm_num
    have h2 : ¬((800 : ℚ) < 800) := by norm_num
    simp [chosen_mode, mode_threshold, h1, h2]

/-- Witness for C1's quantified parts: a forced mode and a sub-threshold
distance at concrete values. -/
theorem c1_mode_selection_witness :
    chosen_mode (some "bus") (some 1000) = "bus" ∧
    chosen_mode none (some 500) = "train" := by
  constructor
  · exact c1_mode_selection.1 "bus" (some 1000) (by decide)
  · rw [c1_mode_selection.2.1 500 (by norm_num), if_pos (show (500 : ℚ) < 800 by norm_num)]

/-- Counterexample for C1 as stated: "0 km" resolves to the numeric distance 0,
which is below 800, yet the chosen default mode is "car_electric", not "train";
and a caller-forced empty-string mode is overridden rather than chosen. -/
theorem c1_claim_false :
    parse_distance (some "0 km") = Except.ok (some 0) ∧
    (0 : ℚ) < 800 ∧
    chosen_mode none (some 0) = "car_electric" ∧
    chosen_mode (some "") (some 900) = "car_electric" := by
  refine ⟨rfl, by norm_num, by decide, by decide⟩

/-- C6 (amended): in `create_itinerary`, emissions are computed via the
estimator iff the obtained numeric distance is nonzero; with no numeric distance
— or with the (truthiness-skipped) distance 0.0 — the context's emissions field
is "(emissions unavailable)". -/
theorem c6_emissions_gate :
    (∀ (rows : List (String × ℚ)) (chosen : String) (d : ℚ), d ≠ 0 →
      emissions_field rows chosen (some d) = estimate_transport_emissions rows chosen d) ∧
    (∀ (rows : List (String × ℚ)) (chosen : String),
      emissions_field rows chosen none = "(emissions unavailable)") ∧
    (∀ (rows : List (String × ℚ)) (chosen : String),
      emissions_field rows chosen (some 0) = "(emissions unavailable)") := by
  refine ⟨?_, fun rows chosen => rfl, fun rows chosen => by simp [emissions_field]⟩
  intro rows chosen d hd
  simp [emissions_field, hd]

/-- Witness for C6 at a concrete nonzero distance. -/
theorem c6_emissions_gate_witness :
    emissions_field [("train", 41)] "train" (some 100) =
      estimate_transport_emissions [("train", 41)] "train" 100 :=
  c6_emissions_gate.1 [("train", 41)] "train" 100 (by norm_num)

/-- Counterexample for C6 as stated: the route text "0 km" yields the numeric
distance 0 — a distance was obtained — yet the emissions field is marked
unavailable, so "computed iff a numeric distance was obtained" fails. -/
theorem c6_claim_false :
    parse_distance (some "0 km") = Except.ok (some 0) ∧
    emissions_field [("train", 41)] "car_electric" (some 0) = "(emissions unavailable)" :=
  ⟨rfl, by decide⟩

/-! ## Route resolvers (src/tools.py lines 67-89; src/agent.py lines 84-101) -/

/-- Python exceptions raised by the HTTP layer: `SSLError` and every other
`RequestException` (the JSON-decode error of `resp.json()` is a
`RequestException` subclass in `requests`).  `msg` is `str(e)`. -/
inductive PyErr
  | ssl (msg : String)
  | req (msg : String)

/-- Python `str(e)` for an exception. -/
def PyErr.msg : PyErr → String
  | .ssl m => m
  | .req m => m

/-- Shape of the directions provider's decoded JSON as the route resolvers
consume it: `data.get("routes")` on a non-dict raises `AttributeError`; a
missing/empty `routes` is falsy; leg/field extraction can raise
`KeyError`/`IndexError`; otherwise the first route's first leg carries the
distance and duration texts. -/
inductive RouteJson
  | nonDict (emsg : String)
  | noRoutes
  | badLeg (emsg : String)
  | leg (dist dur : String)

/-- Embedding of `get_route(origin, destination, mode)` (src/tools.py lines
67-89).  `net` is the outcome of the single `requests.get`/`raise_for_status`/
`resp.json()` interaction.  With a falsy `MAPS_API_KEY` the function raises
`RuntimeError` (modelled as `Except.error`) before any request.
`RequestException` and `KeyError`/`IndexError` are caught and logged, falling
through to `return None, None`; an `AttributeError` from a non-dict payload is
not caught and propagates. -/
def get_route (key : Option String) (net : Except PyErr RouteJson) :
    Except String (Option String × Option String) :=
  if pyTruthyOptStr key then
    match net with
    | .error _ => Except.ok (none, none)
    | .ok (.nonDict m) => Except.error m
    | .ok .noRoutes => Except.ok (none, none)
    | .ok (.badLeg _) => Except.ok (none, none)
    | .ok (.leg d u) => Except.ok (some d, some u)
  else Except.error "Missing GOOGLE_MAPS_API_KEY environment variable."

/-- Number of HTTP requests `get_route` issues: none when the key is falsy
(the raise precedes the request), exactly one otherwise. -/
def get_route_calls (key : Option String) : ℕ :=
  if pyTruthyOptStr key then 1 else 0

/-- Embedding of `_safe_get_route(origin, destination, mode)` (src/agent.py
lines 84-101).  Every exception of the request/parse block is caught by the
bare `except Exception` and reported as a `(route error: ...)` string; a falsy
key short-circuits to the `(route unavailable: ...)` string with no request. -/
def safe_get_route (key : Option String) (net : Except PyErr RouteJson) :
    Option String × Option String × Option String :=
  if pyTruthyOptStr key then
    match net with
    | .error e => (none, none, some ("(route error: " ++ e.msg ++ ")"))
    | .ok (.nonDict m) => (none, none, some ("(route error: " ++ m ++ ")"))
    | .ok .noRoutes => (none, none, some "(no routes found)")
    | .ok (.badLeg m) => (none, none, some ("(route error: " ++ m ++ ")"))
    | .ok (.leg d u) => (some d, some u, none)
  else (none, none, some "(route unavailable: missing GOOGLE_MAPS_API_KEY)")

/-- Number of HTTP requests `_safe_get_route` issues. -/
def safe_get_route_calls (key : Option String) : ℕ :=
  if pyTruthyOptStr key then 1 else 0

/-- C2 (amended): with the directions-provider key absent, `get_route` makes no
network call but raises `RuntimeError` naming the missing key — it does not
return a failure string; the assembler's resolver `_safe_get_route` is the one
that returns an immediate descriptive failure string to the caller, makes no
network call, and raises no exception. -/
theorem c2_missing_key (net : Except PyErr RouteJson) :
    get_route none net =
      Except.error "Missing GOOGLE_MAPS_API_KEY environment variable." ∧
    get_route_calls none = 0 ∧
    safe_get_route none net =
      (none, none, some "(route unavailable: missing GOOGLE_MAPS_API_KEY)") ∧
    safe_get_route_calls none = 0 :=
  ⟨rfl, rfl, rfl, rfl⟩

/-- Counterexample for C2 as stated: at a concrete invocation with the key
absent, `get_route` raises (`Except.error`) instead of returning a descriptive
failure string to the caller. -/
theorem c2_claim_false :
    get_route none (Except.ok RouteJson.noRoutes) =
      Except.error "Missing GOOGLE_MAPS_API_KEY environment variable." := rfl

/-! ## Geocoder (src/tools.py lines 330-353) -/

/-- A JSON leaf value passed to Python `float(...)`:  `float(None)` and
`float` of a nested structure raise (`TypeError`), `float(bool)` yields 0/1,
strings parse as decimal literals or raise `ValueError`. -/
inductive JsonLeaf
  | null
  | str (s : String)
  | num (q : ℚ)
  | boolVal (b : Bool)
  | nested

/-- Python `float(x)` on a JSON leaf; `none` models a raised exception. -/
def pyFloatLeaf : JsonLeaf → Option ℚ
  | .null => none
  | .str s => pyFloatOfString s
  | .num q => some q
  | .boolVal b => some (if b then 1 else 0)
  | .nested => none

/-- Shape of the geocoding provider's decoded JSON as `geocode_city` consumes
it: `data = resp.json() or []` turns a falsy payload into `[]` and `if not
data` returns `None`; a truthy non-list payload (or a first element that is
not a dict) makes `data[0]` / `.get` raise, which the handler catches; a
nonempty list's first dict yields the `lat`/`lon` leaves (`.get` gives `null`
for a missing key). -/
inductive GeoJson
  | falsy
  | badShape (emsg : String)
  | firstItem (lat lon : JsonLeaf)

/-- Embedding of `geocode_city(city)` (src/tools.py lines 330-353).  `net` is
the outcome of the single `requests.get`/`raise_for_status`/`resp.json()`
interaction.  `SSLError` and every other exception — including any exception
raised while indexing the payload or converting `lat`/`lon` with `float` — is
caught, logged, and mapped to `None`. -/
def geocode_city (net : Except PyErr GeoJson) : Option (ℚ × ℚ) :=
  match net with
  | .error _ => none
  | .ok .falsy => none
  | .ok (.badShape _) => none
  | .ok (.firstItem la lo) =>
    match pyFloatLeaf la, pyFloatLeaf lo with
    | some a, some b => some (a, b)
    | _, _ => none

/-- Number of HTTP requests `geocode_city` issues: its body performs exactly
one `requests.get`, unconditionally, with no retry loop around it. -/
def geocode_city_calls (_net : Except PyErr GeoJson) : ℕ := 1

/-- C7: the geocoder makes at most one network call per invocation (no
retry/backoff), and every transport error — certificate-validation failure
included — maps to the "not found" signal `None` instead of propagating. -/
theorem c7_geocoder_single_call (net : Except PyErr GeoJson) :
    geocode_city_calls net ≤ 1 ∧
    (∀ e : PyErr, net = Except.error e → geocode_city net = none) := by
  refine ⟨le_refl 1, ?_⟩
  intro e he
  rw [he]
  rfl

/-- Witness for C7 at a concrete certificate-validation failure. -/
theorem c7_geocoder_single_call_witness :
    geocode_city_calls (Except.error (PyErr.ssl "certificate verify failed")) ≤ 1 ∧
    geocode_city (Except.error (PyErr.ssl "certificate verify failed")) = none :=
  ⟨(c7_geocoder_single_call _).1,
   (c7_geocoder_single_call _).2 (PyErr.ssl "certificate verify failed") rfl⟩

/-- C10: for every input, `geocode_city` returns either `None` or a pair of two
numbers successfully parsed by `float` from the first result's `lat`/`lon`
fields; it never returns a partially populated or non-numeric coordinate. -/
theorem c10_geocoder_shape (net : Except PyErr GeoJson) :
    geocode_city net = none ∨
    ∃ (la lo : JsonLeaf) (a b : ℚ), net = Except.ok (GeoJson.firstItem la lo) ∧
      pyFloatLeaf la = some a ∧ pyFloatLeaf lo = some b ∧
      geocode_city net = some (a, b) := by
  rcases net with e | j
  · exact Or.inl rfl
  · rcases j with _ | m | ⟨la, lo⟩
    · exact Or.inl rfl
    · exact Or.inl rfl
    · rcases ha : pyFloatLeaf la with _ | a
      · exact Or.inl (by simp [geocode_city, ha])
      · rcases hb : pyFloatLeaf lo with _ | b
        · exact Or.inl (by simp [geocode_city, ha, hb])
        · exact Or.inr ⟨la, lo, a, b, rfl, ha, hb, by simp [geocode_city, ha, hb]⟩

/-! ## Environmental-data fetchers (src/tools.py lines 356-379, 146-162,
397-419) -/

/-- Decimal digits of the fraction `rem / den`, up to `fuel` digits (Python's
`str(float)` prints the shortest expansion; the provider values involved have
short exact expansions). -/
def fracDigits : ℕ → ℕ → ℕ → List Char
  | _, _, 0 => []
  | rem, den, fuel + 1 =>
    if rem = 0 then []
    else
      let x := rem * 10
      Char.ofNat ('0'.toNat + x / den) :: fracDigits (x % den) den fuel

/-- Python `str(x)` for a float with a short decimal expansion (always at
least one digit after the point, as in `str(18.0) = "18.0"`). -/
def pyShowQ (q : ℚ) : String :=
  let sgn := if q.num < 0 then "-" else ""
  let m := q.num.natAbs
  let ds := fracDigits (m % q.den) q.den 17
  sgn ++ Nat.repr (m / q.den) ++ "." ++ (if ds.isEmpty then "0" else String.mk ds)

/-- Python string interpolation of an optional float (`None` prints as "None"). -/
def pyShowOptQ : Option ℚ → String
  | none => "None"
  | some q => pyShowQ q

/-- Embedding of `fetch_weather(city)` (src/tools.py lines 356-379).  `geoNet`
is the geocoding interaction's outcome, `wNet` the weather request's outcome
(`temperature` and `windspeed` fields of `current_weather`, absent fields as
`none`; data-shape exceptions are folded into the caught exception case, whose
message formatting they share). -/
def fetch_weather (geoNet : Except PyErr GeoJson)
    (wNet : Except PyErr (Option ℚ × Option ℚ)) (city : String) : String :=
  match geocode_city geoNet with
  | none => "Could not geocode city '" ++ city ++ "'."
  | some _ =>
    match wNet with
    | .error (.ssl m) =>
      "Weather API SSL error: certificate verification failed. Suggestions: upgrade certifi (pip install --upgrade certifi), or set REQUESTS_CA_BUNDLE=/path/to/ca-bundle.pem if using a corporate proxy. Raw: " ++ m
    | .error (.req m) => "Weather API error: " ++ m
    | .ok (t, w) =>
      "Weather in " ++ city ++ ": " ++ pyShowOptQ t ++ "°C, wind " ++ pyShowOptQ w ++ " m/s."

/-- Embedding of `fetch_city_time(city)` (src/tools.py lines 397-419).  The
crude UTC offset is `int(round(lon / 15.0))`; `clock` abstracts
`(datetime.utcnow().replace(microsecond=0) + offset).isoformat()` as a function
of the offset (wall-clock time is environmental input). -/
def fetch_city_time (geoNet : Except PyErr GeoJson) (clock : ℤ → String)
    (city : String) : String :=
  match geocode_city geoNet with
  | none => "Could not determine time for '" ++ city ++ "'."
  | some (_, lon) =>
    let offset_hours := pyRound (lon / 15)
    let tz := if offset_hours = 0 then "UTC"
      else "UTC" ++ (if 0 ≤ offset_hours then "+" else "") ++ Int.repr offset_hours
    "Approximate local time in " ++ city ++ ": " ++ clock offset_hours ++ " (" ++ tz ++ ")"

/-- Embedding of `fetch_air_quality_openmeteo(city)` (src/tools.py lines
146-292).  With the optional packages missing the fixed unavailability message
is returned before geocoding; otherwise geocoding failure returns the
"Could not geocode" message.  The remaining provider interaction — rich
client, JSON fallback and the TLS-bypass ladder — happens strictly after the
geocode check and is abstracted as the input `rest` (no claim under proof
concerns those branches). -/
def fetch_air_quality_openmeteo (available : Bool) (geoNet : Except PyErr GeoJson)
    (rest : String) (city : String) : String :=
  if !available then
    "Open-Meteo detailed client unavailable (missing optional packages: openmeteo_requests, pandas, requests_cache, retry_requests). Install them to enable this feature."
  else
    match geocode_city geoNet with
    | none => "Could not geocode city '" ++ city ++ "'."
    | some _ => rest

/-- C8: whenever geocoding fails, each fetcher returns its human-readable
failure message — "Could not geocode city '...'." for the weather and
air-quality fetchers and the equivalent "Could not determine time for '...'."
for the local-time fetcher — rather than raising. -/
theorem c8_geocode_failure_messages (geoNet : Except PyErr GeoJson)
    (h : geocode_city geoNet = none) (wNet : Except PyErr (Option ℚ × Option ℚ))
    (clock : ℤ → String) (rest : String) (city : String) :
    fetch_weather geoNet wNet city = "Could not geocode city '" ++ city ++ "'." ∧
    fetch_air_quality_openmeteo true geoNet rest city =
      "Could not geocode city '" ++ city ++ "'." ∧
    fetch_city_time geoNet clock city =
      "Could not determine time for '" ++ city ++ "'." := by
  refine ⟨?_, ?_, ?_⟩ <;>
    simp [fetch_weather, fetch_air_quality_openmeteo, fetch_city_time, h]

/-- Witness for C8 at a concrete failing geocode (empty provider result) and
the city names used by the repository's own tests. -/
theorem c8_geocode_failure_messages_witness :
    fetch_weather (Except.ok GeoJson.falsy) (Except.ok (none, none)) "UnknownTown" =
      "Could not geocode city '" ++ "UnknownTown" ++ "'." ∧
    fetch_city_time (Except.ok GeoJson.falsy) Int.repr "Atlantis" =
      "Could not determine time for '" ++ "Atlantis" ++ "'." := by
  constructor
  · exact (c8_geocode_failure_messages (Except.ok GeoJson.falsy) rfl
      (Except.ok (none, none)) Int.repr "" "UnknownTown").1
  · exact (c8_geocode_failure_messages (Except.ok GeoJson.falsy) rfl
      (Except.ok (none, none)) Int.repr "" "Atlantis").2.2

/-! ## Itinerary assembly (src/agent.py lines 141-184) -/

/-- The fixed canned five-day template substituted when the text-generation
collaborator is unavailable (src/agent.py lines 171-178). -/
def cannedItinerary : String :=
  "(LLM unavailable) Draft itinerary:\n" ++
  "Day 1: Arrival and orientation; walking tour to minimize transport emissions.\n" ++
  "Day 2: Public transit to key sights; choose plant-based meals.\n" ++
  "Day 3: Regional nature excursion via train or shared shuttle.\n" ++
  "Day 4: Local cultural experiences; support small sustainable businesses.\n" ++
  "Day 5: Departure; offset remaining emissions through a reputable program."

/-- The itinerary body (src/agent.py lines 164-178).  `ready` embeds
`self._llm_ready and self._model`; `out` is the generation outcome: a raised
exception's message, or the response's optional `text` attribute (`getattr`
default "(no model text)" when absent). -/
def llm_text (ready : Bool) (out : Except String (Option String)) : String :=
  if ready then
    match out with
    | .error e => "(LLM generation failed: " ++ e ++ ")"
    | .ok none => "(no model text)"
    | .ok (some t) => t
  else cannedItinerary

/-- The context block f-string of `create_itinerary` (src/agent.py lines
151-156), with the distance/duration display strings already substituted. -/
def contextBlock (origin destination distLine durLine weather air time_info
    emissions chosen : String) : String :=
  ("Origin: " ++ origin ++ "\nDestination: " ++ destination ++ "\n") ++
  ("Distance: " ++ distLine ++ " | Duration: " ++ durLine) ++
  ("\nWeather: " ++ weather ++ "\nAirQuality: " ++ air ++ "\nLocalTime: " ++ time_info ++ "\n") ++
  ("Emissions: " ++ emissions) ++
  ("\nPreferredMode: " ++ chosen ++ "\n")

/-- The trailing `RouteStatus` annotation (src/agent.py line 183):
`f"RouteStatus: {route_err}\n" if route_err else ""` — a `None` or empty
route error contributes nothing. -/
def route_status_line (route_err : Option String) : String :=
  match route_err with
  | none => ""
  | some e => if e = "" then "" else "RouteStatus: " ++ e ++ "\n"

/-- The returned concatenation of `create_itinerary` (src/agent.py lines
180-184): header, body, raw-context separator, context block and route
annotation. -/
def itinerary_output (body context routeLine : String) : String :=
  ("=== Sustainable Travel Itinerary ===\n" ++ body ++ "\n\n=== Raw Context ===\n") ++
  context ++ routeLine

/-- Embedding of `ItineraryAgent.create_itinerary(origin, destination, mode)`
(src/agent.py lines 141-184).  `net` is the directions interaction's outcome
consumed by `_safe_get_route`; `weather`, `air` and `time_info` are the result
strings of the three destination fetchers (each embedded separately above, as
a function of its own network interaction); `ready`/`llmOut` drive the
generation step.  The only uncaught exception in the body is the `ValueError`
`_format_distance_km` can raise, so the function returns `Except.error` exactly
when `parse_distance` does. -/
def create_itinerary (rows : List (String × ℚ)) (mapsKey : Option String)
    (net : Except PyErr RouteJson) (weather air time_info : String)
    (ready : Bool) (llmOut : Except String (Option String))
    (origin destination : String) (mode : Option String) : Except Unit String :=
  let r := safe_get_route mapsKey net
  let distance_text := r.1
  let duration_text := r.2.1
  let route_err := r.2.2
  match parse_distance distance_text with
  | .error e => Except.error e
  | .ok distance_km =>
    let chosen := chosen_mode mode distance_km
    let emissions := emissions_field rows chosen distance_km
    let context := contextBlock origin destination (pyOrStr distance_text "Unknown")
      (pyOrStr duration_text "Unknown") weather air time_info emissions chosen
    Except.ok (itinerary_output (llm_text ready llmOut) context (route_status_line route_err))

/-- C9 (amended): with no directions-provider key, assembly always succeeds
(returns a string, no step aborts it) and produces the context block with
"Distance: Unknown | Duration: Unknown" and emissions marked unavailable; the
generated-or-canned body is non-empty in every case except the one where the
ready collaborator itself returns empty text. -/
theorem c9_no_key_assembly (rows : List (String × ℚ)) (net : Except PyErr RouteJson)
    (weather air time_info : String) (ready : Bool) (out : Except String (Option String))
    (origin destination : String) (mode : Option String) :
    create_itinerary rows none net weather air time_info ready out origin destination mode =
      Except.ok (itinerary_output (llm_text ready out)
        (contextBlock origin destination "Unknown" "Unknown" weather air time_info
          "(emissions unavailable)" (chosen_mode mode none))
        "RouteStatus: (route unavailable: missing GOOGLE_MAPS_API_KEY)\n") ∧
    occursIn "Distance: Unknown | Duration: Unknown"
      (itinerary_output (llm_text ready out)
        (contextBlock origin destination "Unknown" "Unknown" weather air time_info
          "(emissions unavailable)" (chosen_mode mode none))
        "RouteStatus: (route unavailable: missing GOOGLE_MAPS_API_KEY)\n") ∧
    occursIn "Emissions: (emissions unavailable)"
      (itinerary_output (llm_text ready out)
        (contextBlock origin destination "Unknown" "Unknown" weather air time_info
          "(emissions unavailable)" (chosen_mode mode none))
        "RouteStatus: (route unavailable: missing GOOGLE_MAPS_API_KEY)\n") ∧
    (llm_text ready out = "" → ready = true ∧ out = Except.ok (some "")) := by
  refine ⟨?_, ?_, ?_, ?_⟩
  · rfl
  · have hg : ("Distance: " ++ "Unknown" ++ " | Duration: " ++ "Unknown" : String) =
        "Distance: Unknown | Duration: Unknown" := by decide
    have hc : occursIn "Distance: Unknown | Duration: Unknown"
        (("Distance: " ++ "Unknown" ++ " | Duration: " ++ "Unknown" : String)) := by
      rw [hg]; exact occursIn_self _
    exact occursIn_appL _ _ _ (occursIn_appR _ _ _
      (occursIn_appL _ _ _ (occursIn_appL _ _ _ (occursIn_appL _ _ _
        (occursIn_appR _ _ _ hc)))))
  · have hg : ("Emissions: " ++ "(emissions unavailable)" : String) =
        "Emissions: (emissions unavailable)" := by decide
    have hc : occursIn "Emissions: (emissions unavailable)"
        (("Emissions: " ++ "(emissions unavailable)" : String)) := by
      rw [hg]; exact occursIn_self _
    exact occursIn_appL _ _ _ (occursIn_appR _ _ _
      (occursIn_appL _ _ _ (occursIn_appR _ _ _ hc)))
  · intro h
    cases ready with
    | false =>
      have hc : llm_text false out = cannedItinerary := rfl
      rw [hc] at h
      exact absurd h (by decide)
    | true =>
      rcases out with e | t
      · have hc : llm_text true (Except.error e) =
            "(LLM generation failed: " ++ e ++ ")" := rfl
        rw [hc] at h
        have hd := congrArg String.data h
        rw [strDataApp, strDataApp] at hd
        rcases List.append_eq_nil.mp hd with ⟨hd1, _⟩
        rcases List.append_eq_nil.mp hd1 with ⟨hA, _⟩
        have : ("(LLM generation failed: " : String) = "" := strOfData _ _ hA
        exact absurd this (by decide)
      · rcases t with _ | t
        · exact absurd h (by decide)
        · exact ⟨rfl, by rw [show t = "" from h]⟩

/-- Witness for C9's conditional part: the hypotheses discharged at the
concrete no-key invocation whose collaborator is ready and returns empty text. -/
theorem c9_no_key_assembly_witness :
    create_itinerary [] none (Except.ok RouteJson.noRoutes) "w" "a" "t" true
      (Except.ok (some "")) "A" "B" none =
      Except.ok (itinerary_output (llm_text true (Except.ok (some "")))
        (contextBlock "A" "B" "Unknown" "Unknown" "w" "a" "t"
          "(emissions unavailable)" (chosen_mode none none))
        "RouteStatus: (route unavailable: missing GOOGLE_MAPS_API_KEY)\n") ∧
    (true = true ∧ (Except.ok (some "") : Except String (Option String)) = Except.ok (some "")) := by
  have h := c9_no_key_assembly [] (Except.ok RouteJson.noRoutes) "w" "a" "t" true
    (Except.ok (some "")) "A" "B" none
  exact ⟨h.1, h.2.2.2 rfl⟩

set_option maxRecDepth 8192 in
/-- Counterexample for C9 as stated: when the ready collaborator returns empty
text, the assembled result still carries the Unknown distance line and the
unavailable emissions marker, but the generated-or-canned itinerary body — the
text between the header and the raw-context separator — is empty. -/
theorem c9_claim_false :
    llm_text true (Except.ok (some "")) = "" ∧
    create_itinerary [] none (Except.ok RouteJson.noRoutes) "w" "a" "t" true
      (Except.ok (some "")) "A" "B" none =
      Except.ok ("=== Sustainable Travel Itinerary ===\n" ++ "" ++
        "\n\n=== Raw Context ===\nOrigin: A\nDestination: B\nDistance: Unknown | Duration: Unknown\nWeather: w\nAirQuality: a\nLocalTime: t\nEmissions: (emissions unavailable)\nPreferredMode: car_electric\nRouteStatus: (route unavailable: missing GOOGLE_MAPS_API_KEY)\n") :=
  ⟨rfl, rfl⟩

end Travel
